import Mathlib

/-!
Verification development for the CoreRun container runtime.

Shallow embedding of the runtime's data model and operations, translated
from the Rust sources (src/network, src/setup, src/process, src/volume,
src/cli), together with theorems settling the specification claims.

External effects (spawned `ip`/`iptables`/`ping` commands, syscalls) are
modelled by oracle records: each external step's outcome is a parameter,
and the embedded functions reproduce the source's control flow on those
outcomes.  Machine integers are modelled as `Nat`/`Int`; IPv4 addresses
as `Nat` values below `2^32`.
-/

/-- Modelled from the spec: the error taxonomy of section 7 (the `error`
module is not present under `src/`; only its constructors and field shapes
are visible at use sites).  Each kind carries its message string. -/
inductive ContainerError where
  | RootRequired
  | NamespaceSetup (message : String)
  | Cgroup (message : String)
  | Filesystem (message : String)
  | Volume (message : String)
  | Network (message : String)
  | ProcessExecution (message : String)
  | InvalidConfiguration (message : String)
  | IoErr (message : String)
deriving DecidableEq, Repr

/-- Protocol of a port mapping (src/network/mod.rs). -/
inductive Protocol where
  | UDP
  | TCP
deriving DecidableEq, Repr

/-- A parsed port mapping (src/network/mod.rs). -/
structure PortMapping where
  host_port : Nat
  container_port : Nat
  protocol : Protocol
deriving DecidableEq, Repr

/-- Split a character list at every occurrence of `c`, keeping empty
segments, like Rust's `str::split(c)` (executable counterpart of
`String.splitOn` for a one-character pattern). -/
def splitCharList (c : Char) : List Char → List (List Char)
  | [] => [[]]
  | x :: xs =>
    let rest := splitCharList c xs
    if x = c then [] :: rest
    else match rest with
      | r :: rs => (x :: r) :: rs
      | [] => [[x]]

/-- Rust `str::split(c).collect::<Vec<_>>()` on a string. -/
def splitOnChar (c : Char) (s : String) : List String :=
  (splitCharList c s.data).map String.mk

/-- Rust `str::to_lowercase()` restricted to ASCII (all inputs compared
against are ASCII literals). -/
def asciiLower (s : String) : String :=
  String.mk (s.data.map (fun c => if 'A' ≤ c ∧ c ≤ 'Z' then Char.ofNat (c.toNat + 32) else c))

/-- Rust `str::parse::<u16>()`: optional leading plus sign, then one or
more ASCII digits, value below 2^16. -/
def parseU16 (s : String) : Option Nat :=
  let cs := match s.data with
    | '+' :: rest => rest
    | cs => cs
  if cs.isEmpty then none
  else if cs.all Char.isDigit then
    let v := cs.foldl (fun a c => a * 10 + (c.toNat - 48)) 0
    if v < 65536 then some v else none
  else none

/-- `PortMapping::parse` (src/network/mod.rs lines 34-68).  Splits on
the slash; a protocol suffix is matched, lowercased, against the string
literals `"tcp"` and `"upd"` exactly as in the source; the port part is
split on the colon into exactly two `u16` fields. -/
def PortMapping.parse (s : String) : Except ContainerError PortMapping :=
  let parts := splitOnChar '/' s
  let port_part := parts.getD 0 ""
  let protoRes : Except ContainerError Protocol :=
    if parts.length > 1 then
      let p := parts.getD 1 ""
      match asciiLower p with
      | "tcp" => Except.ok Protocol.TCP
      | "upd" => Except.ok Protocol.UDP
      | _ => Except.error (ContainerError.Network ("Invalid protocol: " ++ p))
    else Except.ok Protocol.TCP
  match protoRes with
  | Except.error e => Except.error e
  | Except.ok protocol =>
    let port_parts := splitOnChar ':' port_part
    if port_parts.length ≠ 2 then
      Except.error (ContainerError.Network "Port mapping must be in format HOST:CONTAINER")
    else
      match parseU16 (port_parts.getD 0 "") with
      | none => Except.error (ContainerError.Network ("Invalid host port: " ++ port_parts.getD 0 ""))
      | some host_port =>
        match parseU16 (port_parts.getD 1 "") with
        | none =>
          Except.error (ContainerError.Network ("Invalid container port: " ++ port_parts.getD 1 ""))
        | some container_port =>
          Except.ok { host_port := host_port, container_port := container_port, protocol := protocol }

example : PortMapping.parse "8080:80/tcp" =
    Except.ok { host_port := 8080, container_port := 80, protocol := Protocol.TCP } := rfl

example : PortMapping.parse "8080:80/upd" =
    Except.ok { host_port := 8080, container_port := 80, protocol := Protocol.UDP } := rfl

example : PortMapping.parse "8080:80/udp" =
    Except.error (ContainerError.Network "Invalid protocol: udp") := rfl

example : PortMapping.parse "8080:80" =
    Except.ok { host_port := 8080, container_port := 80, protocol := Protocol.TCP } := rfl

/-- An IPv4 network as stored by the `ipnetwork` crate: an address and a
CIDR mask length.  Addresses are `Nat` values below `2^32`. -/
structure Ipv4Net where
  addr : Nat
  maskBits : Nat
deriving DecidableEq, Repr

/-- Number of addresses in the network (`2^(32-maskBits)`). -/
def Ipv4Net.size (n : Ipv4Net) : Nat := 2 ^ (32 - n.maskBits)

/-- The network (base) address: host bits of `addr` cleared. -/
def Ipv4Net.network (n : Ipv4Net) : Nat := n.addr - n.addr % n.size

/-- `Ipv4Network::iter()`: every address of the network in ascending
order, starting at the network address. -/
def Ipv4Net.addrList (n : Ipv4Net) : List Nat :=
  (List.range n.size).map (fun i => n.network + i)

/-- Build an address from dotted-quad components. -/
def ipv4 (a b c d : Nat) : Nat := ((a * 256 + b) * 256 + c) * 256 + d

/-- Rust `u8`-style parse for one dotted-quad component. -/
def parseOctet (s : String) : Option Nat :=
  if s.data.isEmpty then none
  else if s.data.all Char.isDigit then
    let v := s.data.foldl (fun a c => a * 10 + (c.toNat - 48)) 0
    if v < 256 then some v else none
  else none

/-- Parse a dotted-quad IPv4 address. -/
def parseIpv4 (s : String) : Option Nat :=
  match (splitOnChar '.' s).map parseOctet with
  | [some a, some b, some c, some d] => some (ipv4 a b c d)
  | _ => none

/-- Parse small decimal numbers (mask lengths). -/
def parseDecimal (s : String) : Option Nat :=
  if s.data.isEmpty then none
  else if s.data.all Char.isDigit then
    some (s.data.foldl (fun a c => a * 10 + (c.toNat - 48)) 0)
  else none

/-- Parse `addr/bits` as the `ipnetwork` crate does for `Ipv4Network`. -/
def Ipv4Net.parseNet (s : String) : Option Ipv4Net :=
  match splitOnChar '/' s with
  | [a, b] =>
    match parseIpv4 a, parseDecimal b with
    | some addr, some bits => if bits ≤ 32 then some ⟨addr, bits⟩ else none
    | _, _ => none
  | _ => none

/-- Render an address as a dotted quad (Rust `Ipv4Addr` `Display`). -/
def renderIpv4 (n : Nat) : String :=
  toString (n / 16777216 % 256) ++ "." ++ toString (n / 65536 % 256) ++ "." ++
    toString (n / 256 % 256) ++ "." ++ toString (n % 256)

/-- Render a network as `addr/bits` (Rust `Ipv4Network` `Display`). -/
def Ipv4Net.render (n : Ipv4Net) : String :=
  renderIpv4 n.addr ++ "/" ++ toString n.maskBits

example : Ipv4Net.parseNet "172.17.0.0/16" = some ⟨ipv4 172 17 0 0, 16⟩ := rfl
example : Ipv4Net.render ⟨ipv4 172 17 0 0, 16⟩ = "172.17.0.0/16" := rfl
/-- `iter().nth(i)` on an `Ipv4Network`: the iterator yields the
network's addresses in ascending arithmetic order from the network
address (the `ipnetwork` crate computes them arithmetically). -/
def Ipv4Net.nth (n : Ipv4Net) (i : Nat) : Option Nat :=
  if i < n.size then some (n.network + i) else none

/-- `IpAllocator` (src/network/net_manager.rs lines 312-316): a subnet
plus the set of currently-held addresses. -/
structure IpAllocator where
  subnet : Ipv4Net
  allocated : Finset Nat

/-- `IpAllocator::new` (lines 317-323): empty allocated set. -/
def IpAllocator.new (subnet : Ipv4Net) : IpAllocator :=
  { subnet := subnet, allocated := ∅ }

/-- The `for ip in self.subnet.iter().skip(2)` search loop of
`allocate`: scan addresses in ascending order from `start`, over the
`fuel` addresses remaining in the subnet, for the first one outside
`allocated`. -/
def findFreeIp (allocated : Finset Nat) : Nat → Nat → Option Nat
  | _, 0 => none
  | start, fuel + 1 =>
    if start ∉ allocated then some start else findFreeIp allocated (start + 1) fuel

/-- `IpAllocator::scan_existing_ips` (lines 487-508): ping-probe the
first twenty candidate addresses (`iter().skip(2).take(20)`, i.e.
`network+2, …`) and insert every address that responds.  The ping
outcomes are the oracle `live`. -/
def IpAllocator.scanExistingIps (a : IpAllocator) (live : Nat → Bool) : IpAllocator :=
  { a with allocated := a.allocated ∪
      (((List.range (min 20 (a.subnet.size - 2))).map
        (fun i => a.subnet.network + (2 + i))).filter live).toFinset }

/-- `IpAllocator::allocate` (lines 324-336): scan, then return the
first address of `iter().skip(2)` not in the allocated set, inserting
it; error when the subnet is exhausted.  Returns the result together
with the post-state. -/
def IpAllocator.allocate (a : IpAllocator) (live : Nat → Bool) :
    Except ContainerError Nat × IpAllocator :=
  match findFreeIp (a.scanExistingIps live).allocated
      ((a.scanExistingIps live).subnet.network + 2)
      ((a.scanExistingIps live).subnet.size - 2) with
  | some ip =>
    (Except.ok ip,
      { a.scanExistingIps live with allocated := insert ip (a.scanExistingIps live).allocated })
  | none =>
    (Except.error (ContainerError.Network "No available IPs in subnet"), a.scanExistingIps live)

/-- `IpAllocator::release` (lines 337-340): remove the address. -/
def IpAllocator.release (a : IpAllocator) (ip : Nat) : IpAllocator :=
  { a with allocated := a.allocated.erase ip }

/-- One step of an allocator history: an `allocate` call (with the ping
oracle observed during its scan) or a `release` call. -/
inductive AllocOp where
  | alloc (live : Nat → Bool)
  | rel (ip : Nat)

/-- State transition of one allocator operation. -/
def allocStep (a : IpAllocator) : AllocOp → IpAllocator
  | AllocOp.alloc live => (a.allocate live).2
  | AllocOp.rel ip => a.release ip

/-- The address returned by an operation (`none` for releases and for
failed allocations). -/
def allocOut (a : IpAllocator) : AllocOp → Option Nat
  | AllocOp.alloc live =>
    match (a.allocate live).1 with
    | Except.ok ip => some ip
    | Except.error _ => none
  | AllocOp.rel _ => none

/-- Allocator state after the first `i` operations of a history. -/
def allocStateAt (a0 : IpAllocator) (ops : List AllocOp) (i : Nat) : IpAllocator :=
  (ops.take i).foldl allocStep a0

/-- The address returned by the `i`-th operation of a history. -/
def allocReturnAt (a0 : IpAllocator) (ops : List AllocOp) (i : Nat) : Option Nat :=
  match ops[i]? with
  | some op => allocOut (allocStateAt a0 ops i) op
  | none => none

example :
    allocReturnAt (IpAllocator.new ⟨ipv4 172 17 0 0, 30⟩) [AllocOp.alloc (fun _ => false)] 0 =
      some (ipv4 172 17 0 2) := by decide

example :
    allocReturnAt (IpAllocator.new ⟨ipv4 172 17 0 0, 30⟩)
      [AllocOp.alloc (fun _ => false), AllocOp.rel (ipv4 172 17 0 2),
       AllocOp.alloc (fun _ => false)] 2 = some (ipv4 172 17 0 2) := by decide

example :
    allocReturnAt (IpAllocator.new ⟨ipv4 172 17 0 0, 16⟩) [AllocOp.alloc (fun _ => false)] 0 =
      some (ipv4 172 17 0 2) := by decide

lemma scan_subnet (a : IpAllocator) (live : Nat → Bool) :
    (a.scanExistingIps live).subnet = a.subnet := rfl

lemma allocate_snd_subnet (a : IpAllocator) (live : Nat → Bool) :
    ((a.allocate live).2).subnet = a.subnet := by
  unfold IpAllocator.allocate
  cases hf : findFreeIp (a.scanExistingIps live).allocated
      ((a.scanExistingIps live).subnet.network + 2)
      ((a.scanExistingIps live).subnet.size - 2) with
  | none => rfl
  | some ip => rfl

lemma allocStep_subnet (a : IpAllocator) (op : AllocOp) :
    (allocStep a op).subnet = a.subnet := by
  cases op with
  | alloc live => exact allocate_snd_subnet a live
  | rel ip => rfl

lemma foldl_allocStep_subnet (ops : List AllocOp) (a : IpAllocator) :
    (ops.foldl allocStep a).subnet = a.subnet := by
  induction ops generalizing a with
  | nil => rfl
  | cons op rest ih => rw [List.foldl_cons, ih, allocStep_subnet]

lemma findFreeIp_some (allocated : Finset Nat) (start fuel x : Nat)
    (h : findFreeIp allocated start fuel = some x) :
    x ∉ allocated ∧ start ≤ x ∧ x < start + fuel := by
  induction fuel generalizing start with
  | zero => exact absurd h (by simp [findFreeIp])
  | succ fuel ih =>
    unfold findFreeIp at h
    by_cases hs : start ∉ allocated
    · rw [if_pos hs] at h
      obtain rfl : start = x := by simpa using h
      exact ⟨hs, Nat.le_refl _, by omega⟩
    · rw [if_neg hs] at h
      obtain ⟨h1, h2, h3⟩ := ih (start + 1) h
      exact ⟨h1, by omega, by omega⟩

lemma allocate_ok_not_mem (a : IpAllocator) (live : Nat → Bool) (x : Nat)
    (h : (a.allocate live).1 = Except.ok x) : x ∉ a.allocated := by
  unfold IpAllocator.allocate at h
  cases hf : findFreeIp (a.scanExistingIps live).allocated
      ((a.scanExistingIps live).subnet.network + 2)
      ((a.scanExistingIps live).subnet.size - 2) with
  | none => rw [hf] at h; simp at h
  | some ip =>
    rw [hf] at h
    have hip : ip = x := by simpa using h
    subst hip
    have hnot := (findFreeIp_some _ _ _ _ hf).1
    intro hmem
    exact hnot (Finset.mem_union_left _ hmem)

lemma allocate_ok_mem_post (a : IpAllocator) (live : Nat → Bool) (x : Nat)
    (h : (a.allocate live).1 = Except.ok x) : x ∈ ((a.allocate live).2).allocated := by
  unfold IpAllocator.allocate at h ⊢
  cases hf : findFreeIp (a.scanExistingIps live).allocated
      ((a.scanExistingIps live).subnet.network + 2)
      ((a.scanExistingIps live).subnet.size - 2) with
  | none => rw [hf] at h; simp at h
  | some ip =>
    rw [hf] at h
    have hip : ip = x := by simpa using h
    subst hip
    exact Finset.mem_insert_self _ _

lemma allocate_ok_ge (a : IpAllocator) (live : Nat → Bool) (x : Nat)
    (h : (a.allocate live).1 = Except.ok x) : a.subnet.network + 2 ≤ x := by
  unfold IpAllocator.allocate at h
  cases hf : findFreeIp (a.scanExistingIps live).allocated
      ((a.scanExistingIps live).subnet.network + 2)
      ((a.scanExistingIps live).subnet.size - 2) with
  | none => rw [hf] at h; simp at h
  | some ip =>
    rw [hf] at h
    have hip : ip = x := by simpa using h
    subst hip
    exact (findFreeIp_some _ _ _ _ hf).2.1

lemma allocate_mono (a : IpAllocator) (live : Nat → Bool) (x : Nat)
    (h : x ∈ a.allocated) : x ∈ ((a.allocate live).2).allocated := by
  unfold IpAllocator.allocate
  have h1 : x ∈ (a.scanExistingIps live).allocated := Finset.mem_union_left _ h
  cases hf : findFreeIp (a.scanExistingIps live).allocated
      ((a.scanExistingIps live).subnet.network + 2)
      ((a.scanExistingIps live).subnet.size - 2) with
  | none => exact h1
  | some ip => exact Finset.mem_insert_of_mem h1

lemma allocStep_preserves (a : IpAllocator) (op : AllocOp) (x : Nat)
    (h : x ∈ a.allocated) (hop : op ≠ AllocOp.rel x) :
    x ∈ (allocStep a op).allocated := by
  cases op with
  | alloc live => exact allocate_mono a live x h
  | rel y =>
    have hxy : x ≠ y := by
      intro he; subst he; exact hop rfl
    exact Finset.mem_erase.mpr ⟨hxy, h⟩

lemma foldl_allocStep_preserves (ops : List AllocOp) (a : IpAllocator) (x : Nat)
    (h : x ∈ a.allocated) (hops : ∀ op ∈ ops, op ≠ AllocOp.rel x) :
    x ∈ (ops.foldl allocStep a).allocated := by
  induction ops generalizing a with
  | nil => exact h
  | cons op rest ih =>
    rw [List.foldl_cons]
    exact ih _ (allocStep_preserves a op x h (hops op (List.mem_cons_self _ _)))
      (fun o ho => hops o (List.mem_cons_of_mem _ ho))

lemma allocStateAt_succ (a0 : IpAllocator) (ops : List AllocOp) (i : Nat) (op : AllocOp)
    (h : ops[i]? = some op) :
    allocStateAt a0 ops (i + 1) = allocStep (allocStateAt a0 ops i) op := by
  unfold allocStateAt
  rw [List.take_succ, h]
  simp [List.foldl_append]

lemma allocOut_alloc_ok (a : IpAllocator) (live : Nat → Bool) (x : Nat)
    (h : allocOut a (AllocOp.alloc live) = some x) : (a.allocate live).1 = Except.ok x := by
  simp only [allocOut] at h
  cases he : (a.allocate live).1 with
  | ok ip =>
    rw [he] at h
    have hip : ip = x := by simpa using h
    rw [hip]
  | error e => rw [he] at h; simp at h

lemma allocStateAt_split (a0 : IpAllocator) (ops : List AllocOp) (i j : Nat) (h : i ≤ j) :
    allocStateAt a0 ops j =
      ((ops.drop i).take (j - i)).foldl allocStep (allocStateAt a0 ops i) := by
  unfold allocStateAt
  conv_lhs => rw [show j = i + (j - i) from by omega]
  rw [List.take_add, List.foldl_append]

/-- C4: over any history of `allocate`/`release` operations on one
allocator, an allocation never returns the network address or the
gateway (host 1) — every returned address lies at or above network+2;
an address returned twice must have an intervening `release` of that
address; and releasing an address not currently held leaves the
allocator unchanged. -/
theorem ipAllocator_alloc_release_spec :
    (∀ (a0 : IpAllocator) (ops : List AllocOp) (i x : Nat),
        allocReturnAt a0 ops i = some x →
        x ≠ a0.subnet.network ∧ x ≠ a0.subnet.network + 1) ∧
    (∀ (a0 : IpAllocator) (ops : List AllocOp) (i j x : Nat),
        i < j →
        allocReturnAt a0 ops i = some x →
        allocReturnAt a0 ops j = some x →
        ∃ k, i < k ∧ k < j ∧ ops[k]? = some (AllocOp.rel x)) ∧
    (∀ (a : IpAllocator) (ip : Nat), ip ∉ a.allocated → a.release ip = a) := by
  refine ⟨?_, ?_, ?_⟩
  · intro a0 ops i x h
    unfold allocReturnAt at h
    cases hop : ops[i]? with
    | none => rw [hop] at h; simp at h
    | some op =>
      rw [hop] at h
      cases op with
      | rel ip => simp [allocOut] at h
      | alloc live =>
        have hok := allocOut_alloc_ok _ _ _ h
        have hge := allocate_ok_ge _ _ _ hok
        have hs : (allocStateAt a0 ops i).subnet = a0.subnet := foldl_allocStep_subnet _ _
        rw [hs] at hge
        constructor <;> omega
  · intro a0 ops i j x hij hi hj
    by_contra hcon
    push_neg at hcon
    unfold allocReturnAt at hi hj
    cases hopi : ops[i]? with
    | none => rw [hopi] at hi; simp at hi
    | some opi =>
      rw [hopi] at hi
      cases hopj : ops[j]? with
      | none => rw [hopj] at hj; simp at hj
      | some opj =>
        rw [hopj] at hj
        cases opi with
        | rel y => simp [allocOut] at hi
        | alloc livei =>
          cases opj with
          | rel y => simp [allocOut] at hj
          | alloc livej =>
            have hoki := allocOut_alloc_ok _ _ _ hi
            have hokj := allocOut_alloc_ok _ _ _ hj
            have hmem1 : x ∈ (allocStateAt a0 ops (i + 1)).allocated := by
              rw [allocStateAt_succ a0 ops i _ hopi]
              exact allocate_ok_mem_post _ _ _ hoki
            have hnone : ∀ op ∈ (ops.drop (i + 1)).take (j - (i + 1)),
                op ≠ AllocOp.rel x := by
              intro op hop hrel
              subst hrel
              obtain ⟨m, hm⟩ := List.mem_iff_getElem?.mp hop
              have hmlen := (List.getElem?_eq_some.mp hm).1
              rw [List.length_take] at hmlen
              have hmlt : m < j - (i + 1) := Nat.lt_of_lt_of_le hmlen (min_le_left _ _)
              rw [List.getElem?_take_of_lt hmlt, List.getElem?_drop] at hm
              exact hcon (i + 1 + m) (by omega) (by omega) hm
            have hmemj : x ∈ (allocStateAt a0 ops j).allocated := by
              rw [allocStateAt_split a0 ops (i + 1) j (by omega)]
              exact foldl_allocStep_preserves _ _ _ hmem1 hnone
            exact allocate_ok_not_mem _ _ _ hokj hmemj
  · intro a ip hip
    unfold IpAllocator.release
    rw [Finset.erase_eq_of_not_mem hip]

/-- Closed instantiation of `ipAllocator_alloc_release_spec` on a /30
subnet: the first allocation returns host 2 (neither the network address
nor the gateway), re-allocation of host 2 at position 2 forces the
release at position 1, and releasing an unheld address is the identity. -/
theorem ipAllocator_alloc_release_spec_witness :
    (ipv4 172 17 0 2 ≠ (IpAllocator.new ⟨ipv4 172 17 0 0, 30⟩).subnet.network ∧
      ipv4 172 17 0 2 ≠ (IpAllocator.new ⟨ipv4 172 17 0 0, 30⟩).subnet.network + 1) ∧
    (∃ k, 0 < k ∧ k < 2 ∧
      ([AllocOp.alloc (fun _ => false), AllocOp.rel (ipv4 172 17 0 2),
        AllocOp.alloc (fun _ => false)])[k]? = some (AllocOp.rel (ipv4 172 17 0 2))) ∧
    IpAllocator.release (IpAllocator.new ⟨ipv4 172 17 0 0, 30⟩) 5 =
      IpAllocator.new ⟨ipv4 172 17 0 0, 30⟩ :=
  ⟨ipAllocator_alloc_release_spec.1 (IpAllocator.new ⟨ipv4 172 17 0 0, 30⟩)
      [AllocOp.alloc (fun _ => false)] 0 (ipv4 172 17 0 2) (by decide),
   ipAllocator_alloc_release_spec.2.1 (IpAllocator.new ⟨ipv4 172 17 0 0, 30⟩)
      [AllocOp.alloc (fun _ => false), AllocOp.rel (ipv4 172 17 0 2),
        AllocOp.alloc (fun _ => false)] 0 2 (ipv4 172 17 0 2) (by decide) (by decide) (by decide),
   ipAllocator_alloc_release_spec.2.2 (IpAllocator.new ⟨ipv4 172 17 0 0, 30⟩) 5 (by decide)⟩

/-- C5: `PortMapping::parse` evaluated on the protocol suffixes.  A
`/udp` spec is rejected with "Invalid protocol: udp" because the source
compares the lowercased suffix against the misspelt literal `"upd"`,
which in turn is accepted as UDP; `/tcp` parses as TCP. -/
theorem portMapping_parse_udp_typo :
    PortMapping.parse "8080:80/udp" =
        Except.error (ContainerError.Network "Invalid protocol: udp") ∧
    PortMapping.parse "8080:80/upd" =
        Except.ok { host_port := 8080, container_port := 80, protocol := Protocol.UDP } ∧
    PortMapping.parse "8080:80/tcp" =
        Except.ok { host_port := 8080, container_port := 80, protocol := Protocol.TCP } :=
  ⟨rfl, rfl, rfl⟩

/-- Whether `pat` occurs at the head of `s`. -/
def leadMatch : List Char → List Char → Bool
  | [], _ => true
  | _ :: _, [] => false
  | p :: ps, c :: cs => p == c && leadMatch ps cs

/-- Whether `pat` occurs anywhere in `s` (Rust `str::contains`). -/
def hasSubList (pat : List Char) : List Char → Bool
  | [] => leadMatch pat []
  | c :: cs => leadMatch pat (c :: cs) || hasSubList pat cs

/-- Rust `str::contains(substring)`. -/
def strContainsSub (s pat : String) : Bool := hasSubList pat.data s.data

/-- Outcome of a completed external command: exit-status success flag
and captured stderr. -/
structure CmdOutput where
  success : Bool
  stderr : String
deriving DecidableEq, Repr

/-- `delete_veth` (src/network/veth.rs lines 50-67).  `spawn = none`
models `Command::output()` itself failing (the `map_err`/`?` path);
`some o` carries the exit status and stderr of the completed command.
The inner branch mirrors the source exactly: on a failed status whose
stderr does not contain "Cannot find device" the source constructs a
`ContainerError::Network` value as a bare expression statement and
discards it, so every completed outcome yields `Ok(())`. -/
def delete_veth (spawn : Option CmdOutput) : Except ContainerError Unit :=
  match spawn with
  | none => Except.error (ContainerError.Network "Failed to delete veth")
  | some o =>
    let _discarded : Option ContainerError :=
      if !o.success && !(strContainsSub o.stderr "Cannot find device")
      then some (ContainerError.Network ("Failed to delete veth: " ++ o.stderr))
      else none
    Except.ok ()

/-- C8: `delete_veth` returns Ok for every completed command outcome —
including failures whose stderr does not mention "Cannot find device" —
and errors only when the command cannot be spawned at all. -/
theorem delete_veth_swallows_all_failures :
    (∀ o : CmdOutput, delete_veth (some o) = Except.ok ()) ∧
    delete_veth (some ⟨false, "RTNETLINK answers: Operation not permitted"⟩) = Except.ok () ∧
    delete_veth none = Except.error (ContainerError.Network "Failed to delete veth") :=
  ⟨fun _ => rfl, rfl, rfl⟩

/-- Oracle for `NetworkNamespace::enter` (src/network/network_namespace.rs
lines 16-43): the outcome of each of the four system operations, the
target pid, and the identities of the caller's current and the target
network namespace. -/
structure NsEnv where
  pid : Int
  openSelfOk : Bool
  openTargetOk : Bool
  setnsTargetOk : Bool
  setnsBackOk : Bool
  currentNs : Nat
  targetNs : Nat

/-- `NetworkNamespace::enter`: open a save handle on the caller's netns,
open the target's netns, `setns` into it, run the block, `setns` back to
the save handle, and surface the block's result when the restore
succeeds.  Returns the result together with the netns the calling thread
is left in.  The block is modelled by its result value (the callbacks in
the source only spawn `ip` subcommands and do not move the caller). -/
def NetworkNamespace.enter {α : Type} (env : NsEnv) (block : Except ContainerError α) :
    Except ContainerError α × Nat :=
  if !env.openSelfOk then
    (Except.error (ContainerError.Network "Failed to open current network namespace"),
      env.currentNs)
  else if !env.openTargetOk then
    (Except.error (ContainerError.Network ("Failed to open namespace for PID " ++ toString env.pid)),
      env.currentNs)
  else if !env.setnsTargetOk then
    (Except.error (ContainerError.Network "Failed to enter container namespace"), env.currentNs)
  else if env.setnsBackOk then
    (block, env.currentNs)
  else
    (Except.error (ContainerError.Network "Failed to return to original namespace"), env.targetNs)

/-- C9: whenever the restoring `setns` (and the preceding opens and
entry `setns`) succeed, `enter` leaves the caller in its original
network namespace and returns exactly the block's result — for an Ok
block and an Err block alike, since the restore is not conditioned on
the block's outcome. -/
theorem networkNamespace_enter_restores :
    ∀ (env : NsEnv) (α : Type) (block : Except ContainerError α),
      env.openSelfOk = true → env.openTargetOk = true →
      env.setnsTargetOk = true → env.setnsBackOk = true →
      NetworkNamespace.enter env block = (block, env.currentNs) := by
  intro env α block h1 h2 h3 h4
  unfold NetworkNamespace.enter
  rw [h1, h2, h3, h4]
  simp

/-- Closed instantiation of `networkNamespace_enter_restores` with an
erroring block: the caller ends back in namespace 7 and the error is
surfaced unchanged. -/
theorem networkNamespace_enter_restores_witness :
    NetworkNamespace.enter ⟨42, true, true, true, true, 7, 9⟩
        (Except.error (ContainerError.Network "block failed") : Except ContainerError Unit) =
      (Except.error (ContainerError.Network "block failed"), 7) :=
  networkNamespace_enter_restores ⟨42, true, true, true, true, 7, 9⟩ Unit
    (Except.error (ContainerError.Network "block failed")) rfl rfl rfl rfl

/-- The hairpin MASQUERADE rule appended by `setup_nat`
(src/network/iptables.rs lines 127-140), as the argument list handed to
the `iptables` command for a given subnet string. -/
def hairpinAddArgs (subnet : String) : List String :=
  ["-t", "nat", "-A", "POSTROUTING", "-s", "127.0.0.1", "-d", subnet, "-j", "MASQUERADE"]

/-- The hairpin delete command issued after the wait by
`cleanup_container_network` (src/setup/setup_container_network.rs lines
53-66), with its hard-coded destination string. -/
def hairpinDeleteArgs : List String :=
  ["-t", "nat", "-D", "POSTROUTING", "-s", "127.0.0.1", "-d", "127.17.0.0/16", "-j", "MASQUERADE"]

/-- The value following a flag in an argument list. -/
def argAfter : List String → String → Option String
  | a :: b :: rest, flag => if a = flag then some b else argAfter (b :: rest) flag
  | _, _ => none

/-- The subnet string of the default network as passed to `setup_nat`:
`NetworkManager::new` parses "172.17.0.0/16" and hands
`subnet.to_string()` to `setup_nat` (src/network/net_manager.rs lines
38, 58). -/
def defaultSubnetString : String :=
  match Ipv4Net.parseNet "172.17.0.0/16" with
  | some n => n.render
  | none => ""

/-- C6: the hairpin POSTROUTING delete does not round-trip the add: the
source addresses agree (127.0.0.1), but the add for the default network
names destination 172.17.0.0/16 while the delete names the hard-coded
127.17.0.0/16, so the two destinations differ. -/
theorem hairpin_cleanup_mismatch :
    argAfter (hairpinAddArgs defaultSubnetString) "-s" = argAfter hairpinDeleteArgs "-s" ∧
    argAfter (hairpinAddArgs defaultSubnetString) "-d" = some "172.17.0.0/16" ∧
    argAfter hairpinDeleteArgs "-d" = some "127.17.0.0/16" ∧
    argAfter (hairpinAddArgs defaultSubnetString) "-d" ≠ argAfter hairpinDeleteArgs "-d" := by
  refine ⟨rfl, rfl, rfl, ?_⟩
  decide

/-- `NetworkMode` (src/network/mod.rs lines 14-20). -/
inductive NetworkMode where
  | Bridge (network_name : String)
  | Host
  | None
  | Container (container_id : String)
deriving DecidableEq, Repr

/-- `ContainerConfig` (src/cli/cli.rs lines 4-17). -/
structure ContainerConfig where
  rootfs : String
  command : String
  args : List String
  hostname : Option String
  memory_limit_mb : Option Nat
  pids_limit : Option Int
  cpu_percent : Option Nat
  volumes : List String
  network_mode : NetworkMode
  ports : List PortMapping
  logs : Option Bool

/-- The operations the child process performs in
`run_container_with_sync` (src/setup/run.rs lines 180-270), at the
granularity the temporal claims speak about.  `volumeBindMount i` is the
`mount_volume` call for the i-th volume inside
`ImplVolume::setup_volumes → setup_fs` (src/volume/impl_volume.rs lines
13-56): creation of `<rootfs>/<dest>` plus the `MS_BIND|MS_REC` mount
and the optional read-only remount. -/
inductive RunEvent where
  | cgroupSetup
  | volumeParseSpecs
  | volumeSourceCreate (i : Nat)
  | volumeBindMount (i : Nat)
  | unshareNamespaces
  | syncPipeRead
  | enterPidNamespace
  | setHostname
  | setupContainerFilesystem
  | execPayload
deriving DecidableEq, Repr

/-- Whether any cgroup limit was requested (the condition guarding
cgroup setup in src/setup/run.rs lines 187-190). -/
def hasLimits (cfg : ContainerConfig) : Bool :=
  cfg.memory_limit_mb.isSome || cfg.cpu_percent.isSome || cfg.pids_limit.isSome

/-- The events of `ImplVolume::setup_volumes` (called only when the
volume list is nonempty, src/setup/run.rs lines 216-228): parse all
specs, create/verify each source directory, then bind-mount each volume
into the rootfs (`setup_fs` is invoked from within `setup_volumes`,
src/volume/impl_volume.rs line 24). -/
def volumeEvents (vols : List String) : List RunEvent :=
  if vols.isEmpty then []
  else
    RunEvent.volumeParseSpecs ::
      ((List.range vols.length).map RunEvent.volumeSourceCreate ++
        (List.range vols.length).map RunEvent.volumeBindMount)

/-- Events the sync-path child performs before `unshare_namespaces`. -/
def childSyncSetupEvents (cfg : ContainerConfig) : List RunEvent :=
  (if hasLimits cfg then [RunEvent.cgroupSetup] else []) ++ volumeEvents cfg.volumes

/-- Events the sync-path child performs after `unshare_namespaces`
(src/setup/run.rs lines 232-260). -/
def childSyncPostUnshareEvents : List RunEvent :=
  [RunEvent.syncPipeRead, RunEvent.enterPidNamespace, RunEvent.setHostname,
    RunEvent.setupContainerFilesystem, RunEvent.execPayload]

/-- The child's operation sequence in `run_container_with_sync` on the
path where no step fails (src/setup/run.rs lines 180-270, in source
order): cgroup setup, volume preparation including the bind mounts, the
unshare, the blocking pipe read, and the remaining container setup. -/
def childSyncTrace (cfg : ContainerConfig) : List RunEvent :=
  childSyncSetupEvents cfg ++ RunEvent.unshareNamespaces :: childSyncPostUnshareEvents

/-- A one-volume bridge-mode configuration. -/
def oneVolumeConfig : ContainerConfig :=
  { rootfs := "/tmp/rfs", command := "/bin/sh", args := [], hostname := none,
    memory_limit_mb := none, pids_limit := none, cpu_percent := none,
    volumes := ["/host/data:/data"], network_mode := NetworkMode.Bridge "bridge",
    ports := [], logs := none }

example : childSyncTrace oneVolumeConfig =
    [RunEvent.volumeParseSpecs, RunEvent.volumeSourceCreate 0, RunEvent.volumeBindMount 0,
     RunEvent.unshareNamespaces, RunEvent.syncPipeRead, RunEvent.enterPidNamespace,
     RunEvent.setHostname, RunEvent.setupContainerFilesystem, RunEvent.execPayload] := rfl

/-- C2 counterexample: in the sync-path child's operation sequence for a
one-volume configuration, the bind mount occupies position 2 and the
unshare position 3, so it is not the case that every bind mount comes
after the unshare — refuting the claim that the mounts are performed
only after `unshare_namespaces` has created the new mount namespace. -/
theorem volume_mounts_before_unshare_counterexample :
    ¬ (∀ i j k : Nat,
        (childSyncTrace oneVolumeConfig)[i]? = some (RunEvent.volumeBindMount k) →
        (childSyncTrace oneVolumeConfig)[j]? = some RunEvent.unshareNamespaces →
        j < i) := by
  intro h
  have := h 2 3 0 rfl rfl
  omega

lemma getElem?_append_lt_of_not_mem_right {α} (l1 l2 : List α) (i : Nat) (x : α)
    (h : (l1 ++ l2)[i]? = some x) (hx : x ∉ l2) : i < l1.length := by
  by_contra hc
  push_neg at hc
  rw [List.getElem?_append_right hc] at h
  exact hx (List.getElem?_mem h)

lemma getElem?_append_ge_of_not_mem_left {α} (l1 l2 : List α) (i : Nat) (x : α)
    (h : (l1 ++ l2)[i]? = some x) (hx : x ∉ l1) : l1.length ≤ i := by
  by_contra hc
  push_neg at hc
  rw [List.getElem?_append_left hc] at h
  exact hx (List.getElem?_mem h)

lemma unshare_not_mem_setup (cfg : ContainerConfig) :
    RunEvent.unshareNamespaces ∉ childSyncSetupEvents cfg := by
  unfold childSyncSetupEvents volumeEvents
  intro h
  rcases List.mem_append.mp h with h1 | h2
  · split at h1 <;> simp_all
  · split at h2
    · simp at h2
    · rcases List.mem_cons.mp h2 with h3 | h4
      · simp at h3
      · rcases List.mem_append.mp h4 with h5 | h6
        · obtain ⟨m, _, hm⟩ := List.mem_map.mp h5
          simp at hm
        · obtain ⟨m, _, hm⟩ := List.mem_map.mp h6
          simp at hm

lemma bindMount_not_mem_post (k : Nat) :
    RunEvent.volumeBindMount k ∉
      RunEvent.unshareNamespaces :: childSyncPostUnshareEvents := by
  simp [childSyncPostUnshareEvents]

/-- C2 (amended): in the sync-path child's operation sequence, every
volume bind mount strictly precedes the `unshare_namespaces` step —
`ImplVolume::setup_volumes` performs the mounts during volume
preparation, before the child unshares its namespaces, not after. -/
theorem volume_mounts_precede_unshare :
    ∀ (cfg : ContainerConfig) (i j k : Nat),
      (childSyncTrace cfg)[i]? = some (RunEvent.volumeBindMount k) →
      (childSyncTrace cfg)[j]? = some RunEvent.unshareNamespaces →
      i < j := by
  intro cfg i j k hi hj
  unfold childSyncTrace at hi hj
  have h1 := getElem?_append_lt_of_not_mem_right _ _ _ _ hi (bindMount_not_mem_post k)
  have h2 := getElem?_append_ge_of_not_mem_left _ _ _ _ hj (unshare_not_mem_setup cfg)
  omega

/-- Closed instantiation of `volume_mounts_precede_unshare` on the
one-volume configuration: the mount at position 2 precedes the unshare
at position 3. -/
theorem volume_mounts_precede_unshare_witness :
    (2 : Nat) < 3 ∧
      (childSyncTrace oneVolumeConfig)[2]? = some (RunEvent.volumeBindMount 0) ∧
      (childSyncTrace oneVolumeConfig)[3]? = some RunEvent.unshareNamespaces :=
  ⟨volume_mounts_precede_unshare oneVolumeConfig 2 3 0 rfl rfl, rfl, rfl⟩

/-- Rust `str::starts_with`. -/
def strStartsWith (s pre : String) : Bool := leadMatch pre.data s.data

/-- The decisive `waitpid` observation for a child process. -/
inductive WaitResult where
  | exited (status : Int)
  | signaled (sig : Int)
  | waitFailed (msg : String)
deriving DecidableEq, Repr

/-- `ProcessManager::wait_for_child` (src/process/process.rs lines
397-425): translate the decisive wait status (the loop's `continue`
cases for other statuses and `EINTR` are skipped by taking the decisive
observation directly). -/
def waitForChild : WaitResult → Except ContainerError Unit
  | WaitResult.exited status =>
    if status ≠ 0 then
      Except.error (ContainerError.ProcessExecution
        ("Container process exited with non-zero status: " ++ toString status))
    else Except.ok ()
  | WaitResult.signaled sig =>
    Except.error (ContainerError.ProcessExecution
      ("Container process killed by signal: " ++ toString sig))
  | WaitResult.waitFailed msg =>
    Except.error (ContainerError.ProcessExecution ("waitpid failed: " ++ msg))

/-- Oracle for one child run: outcomes of every fallible step of
`run_container` / `run_container_with_sync` and of the process
supervisor.  `pathExists` is the container filesystem oracle used for
command resolution; `payloadWait` the wait status of the payload. -/
structure RunEnv where
  cgroupResult : Except ContainerError Unit
  volumesResult : Except ContainerError Unit
  unshareResult : Except ContainerError Unit
  enterPidResult : Except ContainerError Unit
  hostnameResult : Except ContainerError Unit
  filesystemResult : Except ContainerError Unit
  devptsResult : Except ContainerError Unit
  pathExists : String → Bool
  forkOk : Bool
  payloadWait : WaitResult
  volumeCleanupResult : Except ContainerError Unit

/-- Command resolution (src/process/process.rs lines 36-44): absolute
commands verbatim, otherwise the first hit among `/bin`, `/usr/bin`,
`/sbin`, `/usr/sbin`, with fallback `/bin/<command>`. -/
def resolveCommandPath (pathExists : String → Bool) (command : String) : String :=
  if strStartsWith command "/" then command
  else
    match (["/bin", "/usr/bin", "/sbin", "/usr/sbin"].map
        (fun pre => pre ++ "/" ++ command)).find? pathExists with
    | some p => p
    | none => "/bin/" ++ command

/-- Sequence two fallible unit steps (the `?` operator). -/
def seqE {E : Type} (a : Except E Unit) (b : Except E Unit) : Except E Unit :=
  match a with
  | Except.error e => Except.error e
  | Except.ok _ => b

/-- `ProcessManager::execute_container_command` (src/process/process.rs
lines 30-65) on the fallback (non-PTY) path: mount devpts, resolve the
command, fail if the resolved path does not exist, fork, and translate
the payload's wait status via `wait_for_child` (the PTY path, lines
233-316, performs the same exit translation). -/
def executeContainerCommand (env : RunEnv) (command : String) : Except ContainerError Unit :=
  seqE env.devptsResult
    (if !env.pathExists (resolveCommandPath env.pathExists command) then
      Except.error (ContainerError.ProcessExecution
        ("Command not found in container: " ++ resolveCommandPath env.pathExists command))
    else if !env.forkOk then
      Except.error (ContainerError.ProcessExecution "fork failed")
    else waitForChild env.payloadWait)

/-- `run_container` (src/setup/run.rs lines 120-178): cgroup setup when
limits are requested, volume setup when volumes are given, unshare,
enter the pid namespace, set hostname, pivot the root filesystem,
execute the payload.  A volume-cleanup failure after a successful
payload is only logged (lines 171-176), so it does not affect the
result. -/
def runContainer (cfg : ContainerConfig) (env : RunEnv) : Except ContainerError Unit :=
  seqE (if hasLimits cfg then env.cgroupResult else Except.ok ())
    (seqE (if cfg.volumes.isEmpty then Except.ok () else env.volumesResult)
      (seqE env.unshareResult
        (seqE env.enterPidResult
          (seqE env.hostnameResult
            (seqE env.filesystemResult
              (seqE (executeContainerCommand env cfg.command) (Except.ok ())))))))

/-- `run_container_with_sync` (src/setup/run.rs lines 180-270): as
`run_container` but with the blocking sync-pipe read between the unshare
and the pid-namespace entry; the read's own failure is only logged
(lines 236-246) and does not alter the control flow, and the trailing
volume cleanup is again only logged. -/
def runContainerWithSync (cfg : ContainerConfig) (env : RunEnv) : Except ContainerError Unit :=
  seqE (if hasLimits cfg then env.cgroupResult else Except.ok ())
    (seqE (if cfg.volumes.isEmpty then Except.ok () else env.volumesResult)
      (seqE env.unshareResult
        (seqE env.enterPidResult
          (seqE env.hostnameResult
            (seqE env.filesystemResult
              (seqE (executeContainerCommand env cfg.command) (Except.ok ())))))))

/-- The exit code of the forked child in the isolated-network path
(src/setup/run.rs lines 94-105): `exit(1)` when
`run_container_with_sync` errs, `exit(0)` otherwise. -/
def childExitCode (cfg : ContainerConfig) (env : RunEnv) : Nat :=
  match runContainerWithSync cfg env with
  | Except.ok _ => 0
  | Except.error _ => 1

/-- Oracle for the parent side of `run` (src/setup/run.rs lines 21-118):
effective-uid check, fork outcome, network-setup outcome and the
`waitpid` observation of the child (`none` models a `waitpid` error).
The network- and volume-cleanup outcomes are only logged by the source
and hence do not appear. -/
structure OrchestratorEnv where
  euidIsRoot : Bool
  forkOk : Bool
  netSetupResult : Except ContainerError Unit
  waitpidResult : Option WaitResult

/-- `isolate_net` (src/setup/run.rs line 38): every mode except Host. -/
def isolateNet (cfg : ContainerConfig) : Bool :=
  match cfg.network_mode with
  | NetworkMode.Host => false
  | _ => true

/-- `run` (src/setup/run.rs lines 21-118) as seen by the parent (the
original `corerun` process): require root; in the isolated path fork,
set up the network (on failure kill the child and propagate), signal the
pipe, `waitpid` the child — logging, but not inspecting, its exit status
— run cleanup (result logged only) and return Ok; the non-isolated path
runs `run_container` in place. -/
def run (cfg : ContainerConfig) (penv : OrchestratorEnv) (cenv : RunEnv) :
    Except ContainerError Unit :=
  if !penv.euidIsRoot then Except.error ContainerError.RootRequired
  else if isolateNet cfg then
    if !penv.forkOk then Except.error (ContainerError.NamespaceSetup "Fork failed")
    else
      match penv.netSetupResult with
      | Except.error e => Except.error e
      | Except.ok _ =>
        match penv.waitpidResult with
        | some _ => Except.ok ()
        | none => Except.error (ContainerError.ProcessExecution "Wait failed")
  else runContainer cfg cenv

/-- `main` (src/main.rs lines 21-39): exit 1 when `run` errs, exit 0
otherwise. -/
def corerunExitCode (cfg : ContainerConfig) (penv : OrchestratorEnv) (cenv : RunEnv) : Nat :=
  match run cfg penv cenv with
  | Except.ok _ => 0
  | Except.error _ => 1

lemma seqE_ne_ok_right {E : Type} (a b : Except E Unit)
    (hb : ∀ u, b ≠ Except.ok u) (u : Unit) : seqE a b ≠ Except.ok u := by
  unfold seqE
  cases a with
  | error e => simp
  | ok v => exact hb u

lemma seqE_ne_ok_left {E : Type} (a b : Except E Unit)
    (ha : ∀ u, a ≠ Except.ok u) (u : Unit) : seqE a b ≠ Except.ok u := by
  cases ha' : a with
  | error e => unfold seqE; simp
  | ok v => exact absurd ha' (ha v)

lemma executeContainerCommand_ne_ok (env : RunEnv) (cmd : String) (c : Int)
    (hw : env.payloadWait = WaitResult.exited c) (hc : c ≠ 0) :
    ∀ u, executeContainerCommand env cmd ≠ Except.ok u := by
  intro u
  unfold executeContainerCommand seqE
  cases env.devptsResult with
  | error e => simp
  | ok v =>
    split
    · simp
    · split
      · simp
      · rw [hw]
        simp only [waitForChild, hc]
        split <;> simp

lemma runContainer_ne_ok (cfg : ContainerConfig) (env : RunEnv) (c : Int)
    (hw : env.payloadWait = WaitResult.exited c) (hc : c ≠ 0) :
    ∀ u, runContainer cfg env ≠ Except.ok u := by
  intro u
  have hexec := executeContainerCommand_ne_ok env cfg.command c hw hc
  unfold runContainer
  apply seqE_ne_ok_right
  intro u1
  apply seqE_ne_ok_right
  intro u2
  apply seqE_ne_ok_right
  intro u3
  apply seqE_ne_ok_right
  intro u4
  apply seqE_ne_ok_right
  intro u5
  apply seqE_ne_ok_right
  intro u6
  apply seqE_ne_ok_left
  exact hexec

/-- C1 (amended): the exit-code contract the code actually implements.
In the host-network path a payload that exits non-zero makes `corerun`
exit 1 (every branch of `run_container` errs).  In the isolated-network
path the forked child does exit 1 on any container error, including a
non-zero payload exit; but the parent — the process whose exit code the
invoker sees — never inspects the child's wait status: whenever fork,
network setup and `waitpid` themselves succeed, `run` returns Ok and
`corerun` exits 0, regardless of the payload's status and of any cleanup
failure (cleanup errors are logged and swallowed). -/
theorem corerun_exit_code_behavior :
    (∀ (cfg : ContainerConfig) (penv : OrchestratorEnv) (cenv : RunEnv) (c : Int),
        cfg.network_mode = NetworkMode.Host →
        cenv.payloadWait = WaitResult.exited c → c ≠ 0 →
        corerunExitCode cfg penv cenv = 1) ∧
    (∀ (cfg : ContainerConfig) (cenv : RunEnv) (c : Int),
        cenv.payloadWait = WaitResult.exited c → c ≠ 0 →
        childExitCode cfg cenv = 1) ∧
    (∀ (cfg : ContainerConfig) (penv : OrchestratorEnv) (cenv : RunEnv) (st : WaitResult),
        isolateNet cfg = true → penv.euidIsRoot = true → penv.forkOk = true →
        penv.netSetupResult = Except.ok () → penv.waitpidResult = some st →
        corerunExitCode cfg penv cenv = 0) := by
  refine ⟨?_, ?_, ?_⟩
  · intro cfg penv cenv c hm hw hc
    have hiso : isolateNet cfg = false := by unfold isolateNet; rw [hm]
    unfold corerunExitCode run
    cases hr : penv.euidIsRoot with
    | false => simp
    | true =>
      simp only [hr, hiso, Bool.not_true, Bool.false_eq_true, if_false]
      cases hres : runContainer cfg cenv with
      | ok v => exact absurd hres (runContainer_ne_ok cfg cenv c hw hc v)
      | error e => simp
  · intro cfg cenv c hw hc
    unfold childExitCode
    have heq : runContainerWithSync cfg cenv = runContainer cfg cenv := rfl
    rw [heq]
    cases hres : runContainer cfg cenv with
    | ok v => exact absurd hres (runContainer_ne_ok cfg cenv c hw hc v)
    | error e => rfl
  · intro cfg penv cenv st hiso hr hf hn hwp
    unfold corerunExitCode run
    rw [hr, hiso, hf, hn, hwp]
    simp

/-- A Host-mode configuration with neither limits nor volumes. -/
def hostModeConfig : ContainerConfig :=
  { rootfs := "/tmp/rfs", command := "/bin/sh", args := [], hostname := none,
    memory_limit_mb := none, pids_limit := none, cpu_percent := none,
    volumes := [], network_mode := NetworkMode.Host, ports := [], logs := none }

/-- A bridge-mode configuration with neither limits nor volumes. -/
def bridgeModeConfig : ContainerConfig :=
  { rootfs := "/tmp/rfs", command := "/bin/sh", args := [], hostname := none,
    memory_limit_mb := none, pids_limit := none, cpu_percent := none,
    volumes := [], network_mode := NetworkMode.Bridge "bridge", ports := [], logs := none }

/-- A child run in which every setup step succeeds and the payload
exits with status 2. -/
def payloadExit2Env : RunEnv :=
  { cgroupResult := Except.ok (), volumesResult := Except.ok (),
    unshareResult := Except.ok (), enterPidResult := Except.ok (),
    hostnameResult := Except.ok (), filesystemResult := Except.ok (),
    devptsResult := Except.ok (), pathExists := fun _ => true, forkOk := true,
    payloadWait := WaitResult.exited 2, volumeCleanupResult := Except.ok () }

/-- A parent run in which root, fork, network setup and `waitpid` all
succeed and the child is observed to exit with status 1. -/
def parentSeesChildExit1 : OrchestratorEnv :=
  { euidIsRoot := true, forkOk := true, netSetupResult := Except.ok (),
    waitpidResult := some (WaitResult.exited 1) }

/-- C1 counterexample: a bridge-mode (isolated-network) run whose
payload exits with status 2.  The forked child does exit 1, and the
parent observes that exit — yet `corerun` exits 0, because the parent
ignores the wait status, refuting the claim that a non-zero payload exit
yields exit code 1 in the isolated-network path. -/
theorem corerun_exit_code_counterexample :
    childExitCode bridgeModeConfig payloadExit2Env = 1 ∧
    corerunExitCode bridgeModeConfig parentSeesChildExit1 payloadExit2Env = 0 :=
  ⟨rfl, rfl⟩

/-- Closed instantiation of `corerun_exit_code_behavior`: host mode with
payload exit 2 gives corerun exit 1; the same failing payload in bridge
mode gives child exit 1 but corerun exit 0. -/
theorem corerun_exit_code_behavior_witness :
    corerunExitCode hostModeConfig parentSeesChildExit1 payloadExit2Env = 1 ∧
    childExitCode bridgeModeConfig payloadExit2Env = 1 ∧
    corerunExitCode bridgeModeConfig parentSeesChildExit1 payloadExit2Env = 0 :=
  ⟨corerun_exit_code_behavior.1 hostModeConfig parentSeesChildExit1 payloadExit2Env 2
      rfl rfl (by decide),
   corerun_exit_code_behavior.2.1 bridgeModeConfig payloadExit2Env 2 rfl (by decide),
   corerun_exit_code_behavior.2.2 bridgeModeConfig parentSeesChildExit1 payloadExit2Env
      (WaitResult.exited 1) rfl rfl rfl rfl rfl⟩

/-- Lookup in an association-list model of `HashMap<String, _>`. -/
def lookupKV {α : Type} : List (String × α) → String → Option α
  | [], _ => none
  | p :: rest, k => if p.1 = k then some p.2 else lookupKV rest k

/-- Insert-or-overwrite in the association-list model (`HashMap::insert`). -/
def insertKV {α : Type} (l : List (String × α)) (k : String) (v : α) : List (String × α) :=
  (k, v) :: l.filter (fun p => decide (p.1 ≠ k))

/-- `ContainerNetwork` (src/network/mod.rs lines 75-83). -/
structure ContainerNetwork where
  mode : NetworkMode
  ip_address : Option Nat
  gateway : Option Nat
  veth_host : Option String
  veth_container : Option String
  ports : List PortMapping
deriving DecidableEq, Repr

/-- `NetworkConfig` (src/network/net_manager.rs lines 25-31); the
`Bridge` struct (src/network/bridge.rs lines 10-13) is represented by
its device name. -/
structure NetworkConfig where
  name : String
  bridge : String
  subnet : Ipv4Net
  gateway : Nat
  allocator : IpAllocator

/-- `NetworkManager` (src/network/net_manager.rs lines 19-22): the two
maps, held in the source under independent mutexes. -/
structure NetworkManager where
  networks : List (String × NetworkConfig)
  container_networks : List (String × ContainerNetwork)

/-- In-place update of one network's allocator
(`networks.get_mut(...)` followed by mutation through the reference). -/
def updateAllocator : List (String × NetworkConfig) → String → IpAllocator →
    List (String × NetworkConfig)
  | [], _, _ => []
  | p :: rest, k, al =>
    (if p.1 = k then (p.1, { p.2 with allocator := al }) else p) :: updateAllocator rest k al

/-- Oracle for the external effects of `create_network`
(src/network/net_manager.rs lines 42-73): bridge creation, IP
assignment, link-up, the two `route_localnet` sysctl writes (the first
is an `expect`, i.e. a panic on failure), and `setup_nat`. -/
structure CreateNetEnv where
  bridgeCreate : Except ContainerError Unit
  setIp : Except ContainerError Unit
  bridgeUp : Except ContainerError Unit
  routeLocalnetAllOk : Bool
  routeLocalnetBridge : Except ContainerError Unit
  setupNatResult : Except ContainerError Unit

/-- A `create_network` run in which every external step succeeds. -/
def allOkCreateNetEnv : CreateNetEnv :=
  { bridgeCreate := Except.ok (), setIp := Except.ok (), bridgeUp := Except.ok (),
    routeLocalnetAllOk := true, routeLocalnetBridge := Except.ok (),
    setupNatResult := Except.ok () }

/-- `NetworkManager::create_network` (src/network/net_manager.rs lines
42-73): parse the subnet; derive the bridge device name (`corerun0` for
the default, `br-<first 8 chars>` otherwise); create the bridge; take
gateway `subnet.iter().nth(1).unwrap()` (a panic, modelled as `none`,
when the subnet has fewer than two addresses); set the bridge IP; bring
it up; enable localhost routing (the first sysctl write panics on
failure); set up NAT; then insert the entry into the networks map. -/
def createNetwork (m : NetworkManager) (name : String) (subnetStr : String)
    (env : CreateNetEnv) : Option (Except ContainerError Unit × NetworkManager) :=
  match Ipv4Net.parseNet subnetStr with
  | none => some (Except.error (ContainerError.Network "Invalid subnet"), m)
  | some subnet =>
    let bridge_name := if name = "bridge" then "corerun0"
      else "br-" ++ String.mk (name.data.take (min 8 name.length))
    match env.bridgeCreate with
    | Except.error e => some (Except.error e, m)
    | Except.ok _ =>
      match subnet.nth 1 with
      | none => none
      | some gateway =>
        match env.setIp with
        | Except.error e => some (Except.error e, m)
        | Except.ok _ =>
          match env.bridgeUp with
          | Except.error e => some (Except.error e, m)
          | Except.ok _ =>
            if !env.routeLocalnetAllOk then none
            else
              match env.routeLocalnetBridge with
              | Except.error e => some (Except.error e, m)
              | Except.ok _ =>
                match env.setupNatResult with
                | Except.error e => some (Except.error e, m)
                | Except.ok _ =>
                  let config : NetworkConfig :=
                    { name := name, bridge := bridge_name, subnet := subnet,
                      gateway := gateway, allocator := IpAllocator.new subnet }
                  some (Except.ok (),
                    { m with networks := insertKV m.networks name config })

/-- `NetworkManager::new` (src/network/net_manager.rs lines 32-41):
fresh empty maps, then `create_network("bridge", "172.17.0.0/16")`. -/
def NetworkManager.new (env : CreateNetEnv) : Option (Except ContainerError NetworkManager) :=
  match createNetwork { networks := [], container_networks := [] }
      "bridge" "172.17.0.0/16" env with
  | none => none
  | some (Except.error e, _) => some (Except.error e)
  | some (Except.ok _, m) => some (Except.ok m)

/-- The manager produced by a fully successful `NetworkManager::new`. -/
def defaultNetworkManager : NetworkManager :=
  match NetworkManager.new allOkCreateNetEnv with
  | some (Except.ok m) => m
  | _ => { networks := [], container_networks := [] }

example : (lookupKV defaultNetworkManager.networks "bridge").map NetworkConfig.gateway =
    some (ipv4 172 17 0 1) := by decide

/-- C3 counterexample: the default network entry created at manager
construction does not carry subnet 172.18.0.0/16 with gateway
172.18.0.1 — evaluating `NetworkManager::new` shows different values. -/
theorem default_network_entry_counterexample :
    (lookupKV defaultNetworkManager.networks "bridge").map NetworkConfig.subnet ≠
      some ⟨ipv4 172 18 0 0, 16⟩ ∧
    (lookupKV defaultNetworkManager.networks "bridge").map NetworkConfig.gateway ≠
      some (ipv4 172 18 0 1) := by
  refine ⟨?_, ?_⟩ <;> decide

/-- C3 (amended): at `NetworkManager` construction the default network
entry is created under key "bridge" with name "bridge", bridge device
`corerun0`, subnet 172.17.0.0/16, and gateway 172.17.0.1 (the first
host address of that subnet, `iter().nth(1)`), with an empty allocator
over that subnet. -/
theorem default_network_entry_fields :
    (lookupKV defaultNetworkManager.networks "bridge").map
        (fun n => (n.name, n.bridge, n.subnet, n.gateway)) =
      some ("bridge", "corerun0", ⟨ipv4 172 17 0 0, 16⟩, ipv4 172 17 0 1) ∧
    (lookupKV defaultNetworkManager.networks "bridge").map
        (fun n => n.allocator.allocated) = some ∅ ∧
    NetworkManager.new allOkCreateNetEnv = some (Except.ok defaultNetworkManager) := by
  refine ⟨by decide, by decide, rfl⟩

/-- Byte-range slice `&s[a..b]` of an ASCII string. -/
def strSlice (s : String) (a b : Nat) : String :=
  String.mk ((s.data.drop a).take (b - a))

/-- First error of a sequence of step outcomes (the chain of `?`
operators over the external calls of `setup_bridge_network`). -/
def seqResults : List (Except ContainerError Unit) → Except ContainerError Unit
  | [] => Except.ok ()
  | Except.ok _ :: rest => seqResults rest
  | Except.error e :: _ => Except.error e

/-- Oracle for the external effects of `setup_container_network`:
the ping outcomes seen by the allocator scan, the outcomes of the
veth/bridge/namespace commands of `setup_bridge_network`
(src/network/net_manager.rs lines 92-190), of `setup_loopback`
(also used by the None mode, lines 207-232), and of each
`add_port_forward` call, indexed by port position. -/
structure NetSetupEnv where
  live : Nat → Bool
  createVeth : Except ContainerError Unit
  attachInterface : Except ContainerError Unit
  moveToNs : Except ContainerError Unit
  loopback : Except ContainerError Unit
  configureInterface : Except ContainerError Unit
  defaultRoute : Except ContainerError Unit
  portForward : Nat → Except ContainerError Unit

/-- A setup run in which every external step succeeds and no foreign
host answers the allocator's ping scan. -/
def allOkNetSetupEnv : NetSetupEnv :=
  { live := fun _ => false, createVeth := Except.ok (), attachInterface := Except.ok (),
    moveToNs := Except.ok (), loopback := Except.ok (), configureInterface := Except.ok (),
    defaultRoute := Except.ok (), portForward := fun _ => Except.ok () }

/-- The `ContainerNetwork` recorded for Host mode (no addresses, no
ports). -/
def hostNetworkEntry : ContainerNetwork :=
  { mode := NetworkMode.Host, ip_address := none, gateway := none,
    veth_host := none, veth_container := none, ports := [] }

/-- The `ContainerNetwork` recorded for None mode. -/
def noneNetworkEntry : ContainerNetwork :=
  { mode := NetworkMode.None, ip_address := none, gateway := none,
    veth_host := none, veth_container := none, ports := [] }

/-- The `ContainerNetwork` recorded for Container (shared) mode: the
target entry's ip and gateway are copied. -/
def sharedNetworkEntry (target_id : String) (target : ContainerNetwork) : ContainerNetwork :=
  { mode := NetworkMode.Container target_id, ip_address := target.ip_address,
    gateway := target.gateway, veth_host := none, veth_container := none, ports := [] }

/-- The `ContainerNetwork` recorded for Bridge mode, with the veth names
derived from bytes 10..17 of the container id. -/
def bridgeNetworkEntry (network_name : String) (container_ip gateway : Nat)
    (container_id : String) (ports : List PortMapping) : ContainerNetwork :=
  { mode := NetworkMode.Bridge network_name, ip_address := some container_ip,
    gateway := some gateway,
    veth_host := some ("veth" ++ strSlice container_id 10 17),
    veth_container := some ("vethc" ++ strSlice container_id 10 17), ports := ports }

/-- `NetworkManager::setup_bridge_network` (src/network/net_manager.rs
lines 92-190).  `networks.get_mut(network_name).unwrap()` panics
(modelled `none`) when the network is absent; the allocator mutation
persists even when a later step fails; the container-id slices
`[..12]`/`[10..17]` panic on ids shorter than 17 bytes; the interface
rename result is discarded by the source (`let _ = ns.enter(...)`); the
remaining external calls propagate errors in source order; on success
the `ContainerNetwork` entry is recorded in the container map. -/
def setupBridgeNetwork (m : NetworkManager) (container_id : String) (pid : Int)
    (network_name : String) (ports : List PortMapping) (env : NetSetupEnv) :
    Option (Except ContainerError ContainerNetwork × NetworkManager) :=
  match lookupKV m.networks network_name with
  | none => none
  | some net =>
    match (net.allocator.allocate env.live).1 with
    | Except.error e =>
      some (Except.error e,
        { m with networks :=
            updateAllocator m.networks network_name (net.allocator.allocate env.live).2 })
    | Except.ok container_ip =>
      if container_id.length < 17 then none
      else
        match seqResults ([env.createVeth, env.attachInterface, env.moveToNs, env.loopback,
            env.configureInterface, env.defaultRoute] ++
            (List.range ports.length).map env.portForward) with
        | Except.error e =>
          some (Except.error e,
            { m with networks :=
                updateAllocator m.networks network_name (net.allocator.allocate env.live).2 })
        | Except.ok _ =>
          some (Except.ok (bridgeNetworkEntry network_name container_ip net.gateway
              container_id ports),
            { m with
              networks :=
                updateAllocator m.networks network_name (net.allocator.allocate env.live).2,
              container_networks := insertKV m.container_networks container_id
                (bridgeNetworkEntry network_name container_ip net.gateway container_id ports) })

/-- `NetworkManager::setup_host_network` (lines 191-206): record an
entry with no addresses and no ports.  The trailing log slices
`container_id[..12]`, panicking on short ids; a panic aborts the
process, so the model hoists the length check. -/
def setupHostNetwork (m : NetworkManager) (container_id : String) :
    Option (Except ContainerError ContainerNetwork × NetworkManager) :=
  if container_id.length < 12 then none
  else some (Except.ok hostNetworkEntry,
    { m with container_networks :=
        insertKV m.container_networks container_id hostNetworkEntry })

/-- `NetworkManager::setup_none_network` (lines 207-232): bring the
loopback up inside the child's netns, then record an empty entry; the
trailing log slices `container_id[..12]` (length check hoisted as for
Host mode). -/
def setupNoneNetwork (m : NetworkManager) (container_id : String) (env : NetSetupEnv) :
    Option (Except ContainerError ContainerNetwork × NetworkManager) :=
  match env.loopback with
  | Except.error e => some (Except.error e, m)
  | Except.ok _ =>
    if container_id.length < 12 then none
    else some (Except.ok noneNetworkEntry,
      { m with container_networks :=
          insertKV m.container_networks container_id noneNetworkEntry })

/-- `NetworkManager::setup_container_network_shared` (lines 233-263):
`container_networks.get(target).clone().unwrap()` panics when the
target id is absent; otherwise the target's ip/gateway are copied into
the new entry; the trailing log slices both ids with `[..12]` (length
checks hoisted). -/
def setupSharedNetwork (m : NetworkManager) (container_id target_container_id : String) :
    Option (Except ContainerError ContainerNetwork × NetworkManager) :=
  match lookupKV m.container_networks target_container_id with
  | none => none
  | some target =>
    if container_id.length < 12 || target_container_id.length < 12 then none
    else some (Except.ok (sharedNetworkEntry target_container_id target),
      { m with container_networks :=
          (insertKV m.container_networks container_id
            (sharedNetworkEntry target_container_id target)) })

/-- `NetworkManager::setup_container_network` (lines 74-91): dispatch
on the network mode. -/
def setupContainerNetwork (m : NetworkManager) (container_id : String) (pid : Int)
    (mode : NetworkMode) (ports : List PortMapping) (env : NetSetupEnv) :
    Option (Except ContainerError ContainerNetwork × NetworkManager) :=
  match mode with
  | NetworkMode.Bridge network_name =>
    setupBridgeNetwork m container_id pid network_name ports env
  | NetworkMode.Host => setupHostNetwork m container_id
  | NetworkMode.None => setupNoneNetwork m container_id env
  | NetworkMode.Container target => setupSharedNetwork m container_id target

/-- C10: requesting Bridge mode with a network name absent from the
networks map, or Container mode with a peer id absent from the container
map, panics (`unwrap` of `None`, modelled as `none`) for every manager
state, id, pid, port list and environment — there is no error-result
branch for these inputs. -/
theorem setup_network_absent_key_panics :
    (∀ (m : NetworkManager) (id : String) (pid : Int) (nm : String)
        (ports : List PortMapping) (env : NetSetupEnv),
        lookupKV m.networks nm = none →
        setupContainerNetwork m id pid (NetworkMode.Bridge nm) ports env = none) ∧
    (∀ (m : NetworkManager) (id : String) (pid : Int) (tid : String)
        (ports : List PortMapping) (env : NetSetupEnv),
        lookupKV m.container_networks tid = none →
        setupContainerNetwork m id pid (NetworkMode.Container tid) ports env = none) := by
  constructor
  · intro m id pid nm ports env h
    have hd : setupContainerNetwork m id pid (NetworkMode.Bridge nm) ports env =
        setupBridgeNetwork m id pid nm ports env := rfl
    rw [hd]
    unfold setupBridgeNetwork
    rw [h]
  · intro m id pid tid ports env h
    have hd : setupContainerNetwork m id pid (NetworkMode.Container tid) ports env =
        setupSharedNetwork m id tid := rfl
    rw [hd]
    unfold setupSharedNetwork
    rw [h]

/-- Closed instantiation of `setup_network_absent_key_panics` on the
default manager: an unknown network name and an unknown peer id both
panic. -/
theorem setup_network_absent_key_panics_witness :
    setupContainerNetwork defaultNetworkManager "container-11111-2222222222" 1234
        (NetworkMode.Bridge "no-such-network") [] allOkNetSetupEnv = none ∧
    setupContainerNetwork defaultNetworkManager "container-11111-2222222222" 1234
        (NetworkMode.Container "container-99999-8888888888") [] allOkNetSetupEnv = none :=
  ⟨setup_network_absent_key_panics.1 defaultNetworkManager "container-11111-2222222222" 1234
      "no-such-network" [] allOkNetSetupEnv rfl,
   setup_network_absent_key_panics.2 defaultNetworkManager "container-11111-2222222222" 1234
      "container-99999-8888888888" [] allOkNetSetupEnv rfl⟩

lemma lookupKV_updateAllocator_self (l : List (String × NetworkConfig)) (k : String)
    (al : IpAllocator) :
    lookupKV (updateAllocator l k al) k =
      (lookupKV l k).map (fun n => { n with allocator := al }) := by
  induction l with
  | nil => rfl
  | cons p rest ih =>
    unfold updateAllocator lookupKV
    by_cases hpk : p.1 = k
    · simp [hpk]
    · simp [hpk, ih]

lemma lookupKV_updateAllocator_ne (l : List (String × NetworkConfig)) (k k' : String)
    (al : IpAllocator) (hne : k' ≠ k) :
    lookupKV (updateAllocator l k al) k' = lookupKV l k' := by
  induction l with
  | nil => rfl
  | cons p rest ih =>
    unfold updateAllocator lookupKV
    by_cases hpk : p.1 = k
    · have hpk' : ¬ p.1 = k' := by rw [hpk]; exact fun he => hne he.symm
      have hkk' : ¬ k = k' := fun he => hne he.symm
      simp [hpk, hpk', hkk', ih]
    · by_cases hp2 : p.1 = k'
      · simp [hpk, hp2, hne]
      · simp [hpk, hp2, ih]

lemma mem_insertKV {α : Type} (l : List (String × α)) (k : String) (v : α) (p : String × α)
    (hp : p ∈ insertKV l k v) : p = (k, v) ∨ p ∈ l := by
  unfold insertKV at hp
  rcases List.mem_cons.mp hp with h | h
  · exact Or.inl h
  · exact Or.inr (List.mem_of_mem_filter h)

/-- The container-map invariant of the amended claim: Host- and
None-mode entries carry no address, and every Bridge-mode entry carries
an address held in its network's allocator set. -/
def ContainerMapInv (m : NetworkManager) : Prop :=
  ∀ p ∈ m.container_networks,
    (p.2.mode = NetworkMode.Host → p.2.ip_address = none) ∧
    (p.2.mode = NetworkMode.None → p.2.ip_address = none) ∧
    (∀ nm, p.2.mode = NetworkMode.Bridge nm →
      ∃ ip net, p.2.ip_address = some ip ∧ lookupKV m.networks nm = some net ∧
        ip ∈ net.allocator.allocated)

lemma inv_updateAllocator (m : NetworkManager) (nm : String) (net : NetworkConfig)
    (live : Nat → Bool) (hlk : lookupKV m.networks nm = some net)
    (hInv : ContainerMapInv m) :
    ContainerMapInv
      { m with networks := updateAllocator m.networks nm (net.allocator.allocate live).2 } := by
  intro p hp
  have hold := hInv p hp
  refine ⟨hold.1, hold.2.1, ?_⟩
  intro nm' hmode
  obtain ⟨ip, net', hip, hlk', hmem⟩ := hold.2.2 nm' hmode
  by_cases he : nm' = nm
  · subst he
    rw [hlk] at hlk'
    have hnet : net = net' := Option.some.inj hlk'
    subst hnet
    refine ⟨ip, { net with allocator := (net.allocator.allocate live).2 }, hip, ?_, ?_⟩
    · show lookupKV (updateAllocator m.networks nm' (net.allocator.allocate live).2) nm' = _
      rw [lookupKV_updateAllocator_self, hlk]
      rfl
    · exact allocate_mono _ _ _ hmem
  · refine ⟨ip, net', hip, ?_, hmem⟩
    show lookupKV (updateAllocator m.networks nm (net.allocator.allocate live).2) nm' = _
    rw [lookupKV_updateAllocator_ne _ _ _ _ he]
    exact hlk'


lemma setupHostNetwork_preserves (m : NetworkManager) (id : String)
    (res : Except ContainerError ContainerNetwork) (m' : NetworkManager)
    (hInv : ContainerMapInv m) (h : setupHostNetwork m id = some (res, m')) :
    ContainerMapInv m' := by
  unfold setupHostNetwork at h
  split at h
  · simp at h
  · injection h with hp
    injection hp with hres hm
    subst hm
    intro p hp2
    rcases mem_insertKV _ _ _ _ hp2 with hpe | hpm
    · subst hpe
      refine ⟨fun _ => rfl, ?_, ?_⟩
      · intro hmode; simp [hostNetworkEntry] at hmode
      · intro nm hmode; simp [hostNetworkEntry] at hmode
    · exact hInv p hpm

lemma setupNoneNetwork_preserves (m : NetworkManager) (id : String) (env : NetSetupEnv)
    (res : Except ContainerError ContainerNetwork) (m' : NetworkManager)
    (hInv : ContainerMapInv m) (h : setupNoneNetwork m id env = some (res, m')) :
    ContainerMapInv m' := by
  unfold setupNoneNetwork at h
  split at h
  · injection h with hp
    injection hp with hres hm
    subst hm
    exact hInv
  · split at h
    · simp at h
    · injection h with hp
      injection hp with hres hm
      subst hm
      intro p hp2
      rcases mem_insertKV _ _ _ _ hp2 with hpe | hpm
      · subst hpe
        refine ⟨?_, fun _ => rfl, ?_⟩
        · intro hmode; simp [noneNetworkEntry] at hmode
        · intro nm hmode; simp [noneNetworkEntry] at hmode
      · exact hInv p hpm

lemma setupSharedNetwork_preserves (m : NetworkManager) (id tid : String)
    (res : Except ContainerError ContainerNetwork) (m' : NetworkManager)
    (hInv : ContainerMapInv m) (h : setupSharedNetwork m id tid = some (res, m')) :
    ContainerMapInv m' := by
  unfold setupSharedNetwork at h
  split at h
  · simp at h
  · split at h
    · simp at h
    · injection h with hp
      injection hp with hres hm
      subst hm
      intro p hp2
      rcases mem_insertKV _ _ _ _ hp2 with hpe | hpm
      · subst hpe
        refine ⟨?_, ?_, ?_⟩
        · intro hmode; simp [sharedNetworkEntry] at hmode
        · intro hmode; simp [sharedNetworkEntry] at hmode
        · intro nm hmode; simp [sharedNetworkEntry] at hmode
      · exact hInv p hpm

lemma setupBridgeNetwork_preserves (m : NetworkManager) (id : String) (pid : Int)
    (nm : String) (ports : List PortMapping) (env : NetSetupEnv)
    (res : Except ContainerError ContainerNetwork) (m' : NetworkManager)
    (hInv : ContainerMapInv m) (h : setupBridgeNetwork m id pid nm ports env = some (res, m')) :
    ContainerMapInv m' := by
  unfold setupBridgeNetwork at h
  split at h
  · simp at h
  · rename_i net hlk
    split at h
    · rename_i e halloc
      injection h with hp
      injection hp with hres hm
      subst hm
      exact inv_updateAllocator m nm net env.live hlk hInv
    · rename_i container_ip halloc
      split at h
      · simp at h
      · split at h
        · rename_i e hseq
          injection h with hp
          injection hp with hres hm
          subst hm
          exact inv_updateAllocator m nm net env.live hlk hInv
        · rename_i u hseq
          injection h with hp
          injection hp with hres hm
          subst hm
          intro p hp2
          rcases mem_insertKV _ _ _ _ hp2 with hpe | hpm
          · subst hpe
            refine ⟨?_, ?_, ?_⟩
            · intro hmode; simp [bridgeNetworkEntry] at hmode
            · intro hmode; simp [bridgeNetworkEntry] at hmode
            · intro nm' hmode
              have hnm : nm = nm' := by simpa [bridgeNetworkEntry] using hmode
              subst hnm
              refine ⟨container_ip,
                { net with allocator := (net.allocator.allocate env.live).2 }, rfl, ?_, ?_⟩
              · show lookupKV (updateAllocator m.networks nm
                    (net.allocator.allocate env.live).2) nm = _
                rw [lookupKV_updateAllocator_self, hlk]
                rfl
              · exact allocate_ok_mem_post _ _ _ halloc
          · exact inv_updateAllocator m nm net env.live hlk hInv p hpm

lemma setupContainerNetwork_preserves (m : NetworkManager) (id : String) (pid : Int)
    (mode : NetworkMode) (ports : List PortMapping) (env : NetSetupEnv)
    (res : Except ContainerError ContainerNetwork) (m' : NetworkManager)
    (hInv : ContainerMapInv m)
    (h : setupContainerNetwork m id pid mode ports env = some (res, m')) :
    ContainerMapInv m' := by
  cases mode with
  | Bridge nm => exact setupBridgeNetwork_preserves m id pid nm ports env res m' hInv h
  | Host => exact setupHostNetwork_preserves m id res m' hInv h
  | None => exact setupNoneNetwork_preserves m id env res m' hInv h
  | Container tid => exact setupSharedNetwork_preserves m id tid res m' hInv h

/-- One manager operation of a history: a `setup_container_network`
call with its oracle. -/
inductive NetOp where
  | setup (id : String) (pid : Int) (mode : NetworkMode) (ports : List PortMapping)
      (env : NetSetupEnv)

/-- One step of the manager history; `none` models a panic aborting the
process (the mutations of a call that returns an error value persist). -/
def netStep (m : NetworkManager) : NetOp → Option NetworkManager
  | NetOp.setup id pid mode ports env =>
    match setupContainerNetwork m id pid mode ports env with
    | none => none
    | some (_, m') => some m'

/-- Run a history of `setup_container_network` calls. -/
def runNetOps (m : NetworkManager) : List NetOp → Option NetworkManager
  | [] => some m
  | op :: rest =>
    match netStep m op with
    | none => none
    | some m' => runNetOps m' rest

/-- C7 (amended): across any history of `setup_container_network`
calls, every entry of the container map satisfies: Host- and None-mode
entries have `ip_address = None`; Bridge-mode entries have
`ip_address = Some ip` with `ip` held in that network's allocator set.
Container-mode entries do not have `ip_address = None` in general:
`setup_container_network_shared` copies the target entry's `ip_address`
and `gateway`, which are `Some` whenever the target was
bridge-networked. -/
theorem container_network_map_invariant :
    (∀ (m0 : NetworkManager) (ops : List NetOp) (m : NetworkManager),
        ContainerMapInv m0 → runNetOps m0 ops = some m → ContainerMapInv m) ∧
    (∀ (m : NetworkManager) (id tid : String) (pid : Int) (ports : List PortMapping)
        (env : NetSetupEnv) (cn : ContainerNetwork) (m' : NetworkManager),
        setupContainerNetwork m id pid (NetworkMode.Container tid) ports env =
          some (Except.ok cn, m') →
        ∃ t, lookupKV m.container_networks tid = some t ∧
          cn.ip_address = t.ip_address ∧ cn.gateway = t.gateway) := by
  constructor
  · intro m0 ops
    induction ops generalizing m0 with
    | nil =>
      intro m hInv h
      unfold runNetOps at h
      injection h with h'
      subst h'
      exact hInv
    | cons op rest ih =>
      intro m hInv h
      unfold runNetOps at h
      cases op with
      | setup id pid mode ports env =>
        cases hstep : netStep m0 (NetOp.setup id pid mode ports env) with
        | none => rw [hstep] at h; simp at h
        | some m1 =>
          rw [hstep] at h
          have h' : runNetOps m1 rest = some m := h
          have hInv1 : ContainerMapInv m1 := by
            have hstep2 : (match setupContainerNetwork m0 id pid mode ports env with
                | none => none
                | some (_, mx) => some mx) = some m1 := hstep
            cases hsc : setupContainerNetwork m0 id pid mode ports env with
            | none => rw [hsc] at hstep2; simp at hstep2
            | some pr =>
              rw [hsc] at hstep2
              have hm1 : pr.2 = m1 := Option.some.inj hstep2
              have hpres := setupContainerNetwork_preserves m0 id pid mode ports env
                pr.1 pr.2 hInv (by rw [hsc])
              exact hm1 ▸ hpres
          exact ih m1 m hInv1 h'
  · intro m id tid pid ports env cn m' h
    have hd : setupContainerNetwork m id pid (NetworkMode.Container tid) ports env =
        setupSharedNetwork m id tid := rfl
    rw [hd] at h
    unfold setupSharedNetwork at h
    split at h
    · simp at h
    · rename_i target hlk
      split at h
      · simp at h
      · injection h with hp
        injection hp with hres hm
        have hcn : cn = sharedNetworkEntry tid target := by
          exact (Except.ok.inj hres).symm
        subst hcn
        exact ⟨target, hlk, rfl, rfl⟩

/-- A well-formed container id for the bridge container. -/
def cid1 : String := "container-11111-2222222222"

/-- A well-formed container id for the shared-mode container. -/
def cid2 : String := "container-33333-4444444444"

/-- The manager after a successful bridge-mode setup of `cid1` on the
default network. -/
def mgrAfterBridgeSetup : NetworkManager :=
  match setupContainerNetwork defaultNetworkManager cid1 1234
      (NetworkMode.Bridge "bridge") [] allOkNetSetupEnv with
  | some (_, m) => m
  | none => defaultNetworkManager

/-- The entry recorded for `cid2` when it shares `cid1`'s network. -/
def sharedCid2Entry : ContainerNetwork :=
  { mode := NetworkMode.Container cid1, ip_address := some (ipv4 172 17 0 2),
    gateway := some (ipv4 172 17 0 1), veth_host := none, veth_container := none,
    ports := [] }

/-- The manager after the shared-mode setup of `cid2` targeting `cid1`. -/
def mgrAfterSharedSetup : NetworkManager :=
  match setupContainerNetwork mgrAfterBridgeSetup cid2 5678
      (NetworkMode.Container cid1) [] allOkNetSetupEnv with
  | some (_, m) => m
  | none => mgrAfterBridgeSetup

/-- C7 counterexample: after a successful bridge setup for `cid1`, a
successful Container-mode setup of `cid2` targeting `cid1` records an
entry whose mode is Container and whose `ip_address` is
`Some 172.17.0.2` (copied from the peer), not `None` as claimed. -/
theorem container_mode_ip_counterexample :
    setupContainerNetwork mgrAfterBridgeSetup cid2 5678
        (NetworkMode.Container cid1) [] allOkNetSetupEnv =
      some (Except.ok sharedCid2Entry, mgrAfterSharedSetup) ∧
    sharedCid2Entry.mode = NetworkMode.Container cid1 ∧
    sharedCid2Entry.ip_address ≠ none ∧
    lookupKV mgrAfterSharedSetup.container_networks cid2 = some sharedCid2Entry := by
  refine ⟨rfl, rfl, by decide, by decide⟩

/-- Closed instantiation of `container_network_map_invariant`: running
the bridge setup of `cid1` on the freshly constructed manager yields a
map satisfying the invariant, and the shared-mode setup of `cid2`
copies `cid1`'s address and gateway. -/
theorem container_network_map_invariant_witness :
    ContainerMapInv mgrAfterBridgeSetup ∧
    (∃ t, lookupKV mgrAfterBridgeSetup.container_networks cid1 = some t ∧
      sharedCid2Entry.ip_address = t.ip_address ∧ sharedCid2Entry.gateway = t.gateway) :=
  ⟨container_network_map_invariant.1 defaultNetworkManager
      [NetOp.setup cid1 1234 (NetworkMode.Bridge "bridge") [] allOkNetSetupEnv]
      mgrAfterBridgeSetup
      (by
        intro p hp
        rw [show defaultNetworkManager.container_networks =
            ([] : List (String × ContainerNetwork)) from rfl] at hp
        exact absurd hp (List.not_mem_nil p))
      rfl,
   container_network_map_invariant.2 mgrAfterBridgeSetup cid2 cid1 5678 [] allOkNetSetupEnv
      sharedCid2Entry mgrAfterSharedSetup rfl⟩
